import Mathlib

/-!
Shallow embedding of the hand-gesture recognition core:
`gesture_classifier.py` (single-frame classifier and temporal smoother),
the validation window of `hand_gesture.py`'s main loop, and
`command_mapper.py` (static command tables).

Coordinates and confidences are modelled as rationals; Python lists of
`(gesture, confidence)` pairs become `List (String × ℚ)`.  Mutable state
(the smoother's history, the validation buffer) is passed explicitly:
each stateful operation takes the state and returns the new state with
its result.
-/

namespace GestureCore

/-- One MediaPipe hand landmark: a normalized 3D point. -/
structure Landmark where
  x : ℚ
  y : ℚ
  z : ℚ
  deriving DecidableEq

/-- Python `lm[i]` on the 21-landmark list; out-of-range reads (which the
source never performs, as `classify` validates the length first) yield the
origin. -/
def nth (lm : List Landmark) (i : Nat) : Landmark :=
  lm.getD i ⟨0, 0, 0⟩

/-- The extension threshold 0.05 (`_is_extended`'s default). -/
def extensionThreshold : ℚ := 5/100

/-- `GestureClassifier._is_extended`: a finger is extended iff
`tip.y < pip.y - threshold`. -/
def is_extended (tip pip : Landmark) : Bool :=
  decide (tip.y < pip.y - extensionThreshold)

/-- Maximum of a nonempty list (Python `max`); 0 for the empty list,
which the source never passes. -/
def listMax (l : List ℚ) : ℚ := l.foldl max (l.headD 0)

/-- Minimum of a nonempty list (Python `min`). -/
def listMin (l : List ℚ) : ℚ := l.foldl min (l.headD 0)

/-- `GestureClassifier._finger_spread`: fingertip x-range over the whole
hand's x-range (plus epsilon 1e-6), clamped to 1. -/
def finger_spread (lm : List Landmark) : ℚ :=
  let tips := [4, 8, 12, 16, 20].map (fun idx => (nth lm idx).x)
  let all_x := lm.map (fun p => p.x)
  let spread := (listMax tips - listMin tips) / (listMax all_x - listMin all_x + 1/1000000)
  min spread 1

/-- `GestureClassifier._get_point_direction`: index tip minus wrist,
dominant axis, with a 0.1 dead zone.  `handedness` is accepted and unused,
as in the source. -/
def get_point_direction (lm : List Landmark) (handedness : String) : String :=
  let wrist := nth lm 0
  let index_tip := nth lm 8
  let dx := index_tip.x - wrist.x
  let dy := index_tip.y - wrist.y
  if |dx| > |dy| then
    if dx < -(1/10) then "left_point"
    else if dx > 1/10 then "right_point"
    else "unknown"
  else
    if dy < -(1/10) then "up_point"
    else if dy > 1/10 then "down_point"
    else "unknown"

/-- `GestureClassifier._get_thumb_direction`: thumb tip minus wrist,
dominant axis, with a 0.1 dead zone.  `handedness` is accepted and unused,
as in the source. -/
def get_thumb_direction (lm : List Landmark) (handedness : String) : String :=
  let wrist := nth lm 0
  let thumb_tip := nth lm 4
  let dx := thumb_tip.x - wrist.x
  let dy := thumb_tip.y - wrist.y
  if |dx| > |dy| then
    if dx < -(1/10) then "thumbs_left"
    else if dx > 1/10 then "thumbs_right"
    else "unknown"
  else
    if dy < -(1/10) then "thumbs_up"
    else if dy > 1/10 then "thumbs_down"
    else "unknown"

/-- Rules 4–7 of `GestureClassifier.classify` (victory, rock, index
pointing, no match), reached when the thumb, closed-palm and open-palm
rules did not return. -/
def classify_tail (index_extended middle_extended ring_extended pinky_extended : Bool)
    (lm : List Landmark) (handedness : String) : String × ℚ :=
  if index_extended && middle_extended && !ring_extended && !pinky_extended then
    ("victory", 88/100)
  else if index_extended && pinky_extended && !middle_extended && !ring_extended then
    ("rock", 88/100)
  else if index_extended && !middle_extended && !ring_extended && !pinky_extended then
    (get_point_direction lm handedness, 80/100)
  else
    ("unknown", 0)

/-- `GestureClassifier.classify`: length guard, finger extension flags,
then the first-match rule chain.  The open-palm rule may fall through
(spread ≤ 0.3), modelled by an `Option` that defers to `classify_tail`. -/
def classify (landmarks : List Landmark) (handedness : String) : String × ℚ :=
  if landmarks.length ≠ 21 then ("unknown", 0)
  else
    let thumb_extended := is_extended (nth landmarks 4) (nth landmarks 3)
    let index_extended := is_extended (nth landmarks 8) (nth landmarks 6)
    let middle_extended := is_extended (nth landmarks 12) (nth landmarks 10)
    let ring_extended := is_extended (nth landmarks 16) (nth landmarks 14)
    let pinky_extended := is_extended (nth landmarks 20) (nth landmarks 18)
    if thumb_extended && !index_extended && !middle_extended && !ring_extended && !pinky_extended then
      (get_thumb_direction landmarks handedness, 85/100)
    else if !(thumb_extended || index_extended || middle_extended || ring_extended || pinky_extended) then
      ("closed_palm", 90/100)
    else
      let open_palm_result : Option (String × ℚ) :=
        if thumb_extended && index_extended && middle_extended && ring_extended && pinky_extended then
          let spread := finger_spread landmarks
          if spread > 3/10 then
            some ("open_palm", min (95/100) (7/10 + spread * (25/100)))
          else none
        else none
      match open_palm_result with
      | some r => r
      | none =>
          classify_tail index_extended middle_extended ring_extended pinky_extended
            landmarks handedness

/-- The smoother's history capacity (`self.history_size = 5`). -/
def historySize : Nat := 5

/-- Python `l[-n:]`: the last `n` entries of a list (all of them when it is
shorter). -/
def lastN (n : Nat) (l : List (String × ℚ)) : List (String × ℚ) :=
  l.drop (l.length - n)

/-- `GestureClassifier.smooth_gesture`, with the mutable `gesture_history`
passed explicitly: returns the updated history and the smoothed
`(gesture, confidence)` pair.  The source's `history_weight` default
parameter is accepted but never read, so it is omitted here.  The early
return inside the `if len > 0` block is modelled by an `Option`. -/
def smooth_gesture (history : List (String × ℚ)) (gesture : String) (confidence : ℚ) :
    List (String × ℚ) × (String × ℚ) :=
  let h1 := history ++ [(gesture, confidence)]
  let h2 := if h1.length > historySize then h1.tail else h1
  let early : Option (String × ℚ) :=
    if h2.length > 0 then
      let recent_gestures := (lastN 3 h2).map Prod.fst
      let recent_confidences := (lastN 3 h2).map Prod.snd
      if recent_gestures.count gesture ≥ 2 then
        some (gesture, recent_confidences.sum / (recent_confidences.length : ℚ))
      else none
    else none
  match early with
  | some r => (h2, r)
  | none =>
    if gesture ≠ "unknown" then (h2, (gesture, confidence))
    else if h2.length > 1 then
      let last := h2.getD (h2.length - 2) ("unknown", 0)
      (h2, (last.1, last.2 * (1/2)))
    else (h2, ("unknown", 0))

/-- The validation window's confidence threshold (0.7). -/
def confidenceThreshold : ℚ := 7/10

/-- Minimum consistent frames needed for validation (10). -/
def minFramesRequired : Nat := 10

/-- Validation window capacity (12). -/
def maxFrames : Nat := 12

/-- The modal label of the buffer.  The source computes
`max(set(gesture_names), key=gesture_names.count)`; here the scan runs over
the deduplicated names in first-occurrence order, keeping the earlier name
on ties.  Python's set iteration order makes the tie-break unspecified, but
every property proved below uses the modal label only where its count is at
least 10 of at most 12, where the maximiser is unique. -/
def mostCommon (gesture_names : List String) : String :=
  gesture_names.dedup.foldl
    (fun best g =>
      if gesture_names.count best < gesture_names.count g then g else best)
    (gesture_names.headD "unknown")

/-- The append-and-trim prefix of one main-loop iteration: a non-`unknown`
smoothed result is appended to `gesture_frame_history`, then the oldest
entry is popped when the buffer exceeds 12. -/
def pushTrim (buf : List (String × ℚ)) (gesture : String) (confidence : ℚ) :
    List (String × ℚ) :=
  let buf1 := if gesture ≠ "unknown" then buf ++ [(gesture, confidence)] else buf
  if buf1.length > maxFrames then buf1.tail else buf1

/-- The validation check of one main-loop iteration, run on the buffer
after append-and-trim: with at least 10 entries, a modal count of at least
10 and mean confidence above 0.7 emit the modal label and reset the buffer;
otherwise keep accumulating. -/
def validationCheck (buf2 : List (String × ℚ)) : List (String × ℚ) × Option String :=
  if minFramesRequired ≤ buf2.length then
    let gesture_names := buf2.map Prod.fst
    let gesture_confidences := buf2.map Prod.snd
    let most_common := mostCommon gesture_names
    let count := gesture_names.count most_common
    let avg_confidence := gesture_confidences.sum / (gesture_confidences.length : ℚ)
    if minFramesRequired ≤ count ∧ confidenceThreshold < avg_confidence then
      ([], some most_common)
    else (buf2, none)
  else (buf2, none)

/-- One full validation-window step (lines 110–131 of `hand_gesture.py`):
append-and-trim, then the validation check. -/
def validationStep (buf : List (String × ℚ)) (gesture : String) (confidence : ℚ) :
    List (String × ℚ) × Option String :=
  validationCheck (pushTrim buf gesture confidence)

/-- Running the validation window over a stream of smoothed results:
the final buffer and the validated commands emitted, in order. -/
def validationRun : List (String × ℚ) → List (String × ℚ) → List (String × ℚ) × List String
  | buf, [] => (buf, [])
  | buf, (g, c) :: rest =>
      let step := validationStep buf g c
      let next := validationRun step.1 rest
      (next.1, step.2.toList ++ next.2)

/-- The buffer contents at each validation check of a run (the buffer as
seen right after append-and-trim, before any reset). -/
def checkBuffers : List (String × ℚ) → List (String × ℚ) → List (List (String × ℚ))
  | _, [] => []
  | buf, (g, c) :: rest =>
      pushTrim buf g c :: checkBuffers (validationCheck (pushTrim buf g c)).1 rest

/-- `command_mapper.GESTURE_TO_COMMAND` as an association list in the
source's insertion order. -/
def GESTURE_TO_COMMAND : List (String × (String × (ℕ × ℕ × ℕ))) := [
  ("left_point", ("LEFT MOVE", (0, 255, 0))),
  ("right_point", ("RIGHT MOVE", (0, 255, 0))),
  ("up_point", ("UPWARD MOVE", (0, 255, 0))),
  ("down_point", ("DOWNWARD MOVE", (0, 255, 0))),
  ("thumbs_up", ("MOVE UP 👍", (255, 100, 100))),
  ("thumbs_down", ("MOVE DOWN 👎", (255, 100, 100))),
  ("thumbs_left", ("MOVE LEFT 👈", (100, 255, 100))),
  ("thumbs_right", ("MOVE RIGHT 👉", (100, 255, 100))),
  ("victory", ("VICTORY CELEBRATION! 🎉", (0, 200, 255))),
  ("rock", ("BACKFLIP!", (255, 0, 255))),
  ("open_palm", ("STOP IMMEDIATELY", (0, 0, 255))),
  ("closed_palm", ("LAND", (255, 0, 0)))
]

/-- `command_mapper.SHAPE_TO_COMMAND`. -/
def SHAPE_TO_COMMAND : List (String × (String × (ℕ × ℕ × ℕ))) := [
  ("circle", ("CIRCLE MOVEMENT", (100, 100, 255))),
  ("square", ("SQUARE PATTERN", (100, 255, 100))),
  ("triangle", ("TRIANGLE PATTERN", (255, 100, 100))),
  ("line", ("LINE MOVEMENT", (200, 200, 0)))
]

/-- `command_mapper.get_gesture_command`: dictionary lookup with the
neutral-gray fallback. -/
def get_gesture_command (gesture : String) : String × (ℕ × ℕ × ℕ) :=
  (GESTURE_TO_COMMAND.lookup gesture).getD ("", (128, 128, 128))

/-- `command_mapper.get_shape_command`: dictionary lookup with the
neutral-gray fallback. -/
def get_shape_command (shape : String) : String × (ℕ × ℕ × ℕ) :=
  (SHAPE_TO_COMMAND.lookup shape).getD ("", (128, 128, 128))

/-- `command_mapper.is_critical_command`. -/
def is_critical_command (gesture : String) : Bool :=
  gesture == "open_palm" || gesture == "closed_palm"

/-- The fixed gesture label set: the keys of `GESTURE_TO_COMMAND`. -/
def gestureKeys : List String := GESTURE_TO_COMMAND.map Prod.fst

/-- The fixed shape label set: the keys of `SHAPE_TO_COMMAND`. -/
def shapeKeys : List String := SHAPE_TO_COMMAND.map Prod.fst

/-- The displacement along the dominant axis that direction resolution
branches on: `dx` when `|dx| > |dy|`, else `dy`. -/
def dominantDisplacement (dx dy : ℚ) : ℚ :=
  if |dx| > |dy| then dx else dy

/-- The guard of `classify`'s thumb rule: thumb extended, the other four
fingers closed. -/
def thumbOnlyExtended (lm : List Landmark) : Bool :=
  is_extended (nth lm 4) (nth lm 3) &&
  !is_extended (nth lm 8) (nth lm 6) &&
  !is_extended (nth lm 12) (nth lm 10) &&
  !is_extended (nth lm 16) (nth lm 14) &&
  !is_extended (nth lm 20) (nth lm 18)

/-- Only the index finger extended (thumb and the other three closed). -/
def indexOnlyExtended (lm : List Landmark) : Bool :=
  !is_extended (nth lm 4) (nth lm 3) &&
  is_extended (nth lm 8) (nth lm 6) &&
  !is_extended (nth lm 12) (nth lm 10) &&
  !is_extended (nth lm 16) (nth lm 14) &&
  !is_extended (nth lm 20) (nth lm 18)

/-- The guard of `classify`'s open-palm rule: all five fingers extended. -/
def allFiveExtended (lm : List Landmark) : Bool :=
  is_extended (nth lm 4) (nth lm 3) &&
  is_extended (nth lm 8) (nth lm 6) &&
  is_extended (nth lm 12) (nth lm 10) &&
  is_extended (nth lm 16) (nth lm 14) &&
  is_extended (nth lm 20) (nth lm 18)

/-- The guard of `classify`'s closed-palm rule: no finger extended. -/
def allFiveClosed (lm : List Landmark) : Bool :=
  !is_extended (nth lm 4) (nth lm 3) &&
  !is_extended (nth lm 8) (nth lm 6) &&
  !is_extended (nth lm 12) (nth lm 10) &&
  !is_extended (nth lm 16) (nth lm 14) &&
  !is_extended (nth lm 20) (nth lm 18)

/-- Translate every landmark of a hand by the same offset. -/
def translate (v : Landmark) (lm : List Landmark) : List Landmark :=
  lm.map (fun p => ⟨p.x + v.x, p.y + v.y, p.z + v.z⟩)

/-- A closed finger's MCP/PIP/DIP/TIP column (tip below the PIP). -/
def closedFinger : List Landmark :=
  [⟨1/2, 48/100, 0⟩, ⟨1/2, 1/2, 0⟩, ⟨1/2, 52/100, 0⟩, ⟨1/2, 55/100, 0⟩]

/-- An extended finger's MCP/PIP/DIP/TIP column with tip x-coordinate
`tx` (tip well above the PIP). -/
def extendedFinger (tx : ℚ) : List Landmark :=
  [⟨1/2, 48/100, 0⟩, ⟨1/2, 35/100, 0⟩, ⟨1/2, 25/100, 0⟩, ⟨tx, 15/100, 0⟩]

/-- A 21-landmark hand with all five fingers closed. -/
def closedHand : List Landmark :=
  [⟨1/2, 1/2, 0⟩, ⟨9/20, 1/2, 0⟩, ⟨47/100, 48/100, 0⟩, ⟨48/100, 45/100, 0⟩,
   ⟨1/2, 55/100, 0⟩]
  ++ closedFinger ++ closedFinger ++ closedFinger ++ closedFinger

/-- A 21-landmark hand with only the thumb extended and the thumb tip in
the direction dead zone: the tip sits at `(0.5, 0.45)` against a wrist at
`(0.5, 0.5)`, so `dx = 0`, `dy = -0.05`, both inside the 0.1 radius. -/
def dzHand : List Landmark :=
  [⟨1/2, 1/2, 0⟩, ⟨9/20, 1/2, 0⟩, ⟨47/100, 48/100, 0⟩, ⟨1/2, 52/100, 0⟩,
   ⟨1/2, 45/100, 0⟩]
  ++ closedFinger ++ closedFinger ++ closedFinger ++ closedFinger

/-- A 21-landmark hand with all five fingers extended and the fingertips
spread across x = 0.3 … 0.7. -/
def spreadHand : List Landmark :=
  [⟨1/2, 1/2, 0⟩, ⟨9/20, 1/2, 0⟩, ⟨47/100, 48/100, 0⟩, ⟨48/100, 45/100, 0⟩,
   ⟨3/10, 3/10, 0⟩]
  ++ extendedFinger (4/10) ++ extendedFinger (1/2) ++ extendedFinger (6/10)
  ++ extendedFinger (7/10)

/-- The smoothing step as the spec words it (claim C3): append and evict
beyond capacity 5, then a first-match chain — repeated-gesture bonus over
the last 3 entries, pass-through for a non-`unknown` gesture, halved-decay
fallback to the second-most-recent entry, else `(unknown, 0)`. -/
def smoothSpec (history : List (String × ℚ)) (gesture : String) (confidence : ℚ) :
    List (String × ℚ) × (String × ℚ) :=
  let h2 :=
    if (history ++ [(gesture, confidence)]).length > historySize then
      (history ++ [(gesture, confidence)]).tail
    else history ++ [(gesture, confidence)]
  let recent := lastN 3 h2
  if ((recent.map Prod.fst).count gesture) ≥ 2 then
    (h2, (gesture, (recent.map Prod.snd).sum / ((recent.map Prod.snd).length : ℚ)))
  else if gesture ≠ "unknown" then
    (h2, (gesture, confidence))
  else if 2 ≤ h2.length then
    (h2, ((h2.getD (h2.length - 2) ("unknown", 0)).1,
          (h2.getD (h2.length - 2) ("unknown", 0)).2 * (1/2)))
  else
    (h2, ("unknown", 0))

/-! ## Helper lemmas -/


/-- A lookup in an association list whose keys avoid `a` yields `none`. -/
theorem lookup_none_of_key_not_mem {β : Type} (l : List (String × β)) (a : String)
    (h : a ∉ l.map Prod.fst) : l.lookup a = none := by
  induction l with
  | nil => rfl
  | cons p rest ih =>
      obtain ⟨k, v⟩ := p
      simp only [List.map_cons, List.mem_cons, not_or] at h
      have hk : (a == k) = false := beq_eq_false_iff_ne.mpr h.1
      simp [List.lookup, hk, ih h.2]

/-- Thumb direction resolution in the dead zone: when the dominant-axis
displacement has magnitude at most 0.1, the direction is `unknown`. -/
theorem get_thumb_direction_dead_zone (lm : List Landmark) (handedness : String)
    (h : |dominantDisplacement ((nth lm 4).x - (nth lm 0).x)
      ((nth lm 4).y - (nth lm 0).y)| ≤ 1/10) :
    get_thumb_direction lm handedness = "unknown" := by
  simp only [get_thumb_direction]
  simp only [dominantDisplacement] at h
  by_cases hd : |(nth lm 4).x - (nth lm 0).x| > |(nth lm 4).y - (nth lm 0).y|
  · rw [if_pos hd] at h
    have hb := abs_le.mp h
    rw [if_pos hd, if_neg (by linarith [hb.1]), if_neg (by linarith [hb.2])]
  · rw [if_neg hd] at h
    have hb := abs_le.mp h
    rw [if_neg hd, if_neg (by linarith [hb.1]), if_neg (by linarith [hb.2])]

/-- Index-point direction resolution in the dead zone. -/
theorem get_point_direction_dead_zone (lm : List Landmark) (handedness : String)
    (h : |dominantDisplacement ((nth lm 8).x - (nth lm 0).x)
      ((nth lm 8).y - (nth lm 0).y)| ≤ 1/10) :
    get_point_direction lm handedness = "unknown" := by
  simp only [get_point_direction]
  simp only [dominantDisplacement] at h
  by_cases hd : |(nth lm 8).x - (nth lm 0).x| > |(nth lm 8).y - (nth lm 0).y|
  · rw [if_pos hd] at h
    have hb := abs_le.mp h
    rw [if_pos hd, if_neg (by linarith [hb.1]), if_neg (by linarith [hb.2])]
  · rw [if_neg hd] at h
    have hb := abs_le.mp h
    rw [if_neg hd, if_neg (by linarith [hb.1]), if_neg (by linarith [hb.2])]

/-- With exactly the thumb extended, `classify` takes the thumb rule. -/
theorem classify_thumb_rule (lm : List Landmark) (handedness : String)
    (hlen : lm.length = 21) (h : thumbOnlyExtended lm = true) :
    classify lm handedness = (get_thumb_direction lm handedness, 85/100) := by
  simp only [thumbOnlyExtended, Bool.and_eq_true, Bool.not_eq_true'] at h
  obtain ⟨⟨⟨⟨ht, hi⟩, hm⟩, hr⟩, hp⟩ := h
  simp [classify, hlen, ht, hi, hm, hr, hp]

/-- With no finger extended, `classify` takes the closed-palm rule. -/
theorem classify_closed_rule (lm : List Landmark) (handedness : String)
    (hlen : lm.length = 21) (h : allFiveClosed lm = true) :
    classify lm handedness = ("closed_palm", 90/100) := by
  simp only [allFiveClosed, Bool.and_eq_true, Bool.not_eq_true'] at h
  obtain ⟨⟨⟨⟨ht, hi⟩, hm⟩, hr⟩, hp⟩ := h
  simp [classify, hlen, ht, hi, hm, hr, hp]

/-- With thumb closed and exactly the index extended, `classify` reaches
the pointing rule. -/
theorem classify_index_rule (lm : List Landmark) (handedness : String)
    (hlen : lm.length = 21) (h : indexOnlyExtended lm = true) :
    classify lm handedness = (get_point_direction lm handedness, 80/100) := by
  simp only [indexOnlyExtended, Bool.and_eq_true, Bool.not_eq_true'] at h
  obtain ⟨⟨⟨⟨ht, hi⟩, hm⟩, hr⟩, hp⟩ := h
  simp [classify, classify_tail, hlen, ht, hi, hm, hr, hp]

/-- With all five fingers extended and spread above 0.3, `classify` takes
the open-palm rule. -/
theorem classify_open_rule_hit (lm : List Landmark) (handedness : String)
    (hlen : lm.length = 21) (h : allFiveExtended lm = true)
    (hs : 3/10 < finger_spread lm) :
    classify lm handedness = ("open_palm", min (95/100) (7/10 + finger_spread lm * (25/100))) := by
  simp only [allFiveExtended, Bool.and_eq_true] at h
  obtain ⟨⟨⟨⟨ht, hi⟩, hm⟩, hr⟩, hp⟩ := h
  simp [classify, hlen, ht, hi, hm, hr, hp, hs]

/-- With all five fingers extended and spread at most 0.3, `classify`
falls through past the open-palm rule to the tail rules. -/
theorem classify_open_rule_falls_through (lm : List Landmark) (handedness : String)
    (hlen : lm.length = 21) (h : allFiveExtended lm = true)
    (hs : finger_spread lm ≤ 3/10) :
    classify lm handedness = classify_tail true true true true lm handedness := by
  simp only [allFiveExtended, Bool.and_eq_true] at h
  obtain ⟨⟨⟨⟨ht, hi⟩, hm⟩, hr⟩, hp⟩ := h
  simp [classify, hlen, ht, hi, hm, hr, hp, not_lt.mpr hs]

/-- The tail rules (victory, rock, pointing) all need a closed finger, so
with all four non-thumb fingers extended they yield `(unknown, 0)`. -/
theorem classify_tail_all_extended (lm : List Landmark) (handedness : String) :
    classify_tail true true true true lm handedness = ("unknown", 0) := by
  simp [classify_tail]

/-- The smoother's step equals the spec-worded chain `smoothSpec`. -/
theorem smooth_gesture_eq_smoothSpec (history : List (String × ℚ)) (gesture : String)
    (confidence : ℚ) :
    smooth_gesture history gesture confidence = smoothSpec history gesture confidence := by
  simp only [smooth_gesture, smoothSpec]
  generalize hH : (if (history ++ [(gesture, confidence)]).length > historySize then
      (history ++ [(gesture, confidence)]).tail
    else history ++ [(gesture, confidence)]) = h2
  have hpos : 0 < h2.length := by
    rw [← hH]
    split
    · rename_i hlen
      rw [List.length_tail]
      simp only [historySize] at hlen
      omega
    · simp
  rw [if_pos hpos]
  by_cases hcnt : List.count gesture (List.map Prod.fst (lastN 3 h2)) ≥ 2
  · rw [if_pos hcnt, if_pos hcnt]
  · rw [if_neg hcnt, if_neg hcnt]
    rfl

/-- Reading the translated hand at an in-range index gives the translated
landmark. -/
theorem nth_translate (v : Landmark) (lm : List Landmark) (i : Nat) (hi : i < lm.length) :
    nth (translate v lm) i =
      ⟨(nth lm i).x + v.x, (nth lm i).y + v.y, (nth lm i).z + v.z⟩ := by
  unfold nth translate
  rw [List.getD_eq_getElem _ _ (by simpa using hi), List.getElem_map,
    List.getD_eq_getElem _ _ hi]

/-- Finger extension depends only on the y-difference, so it is invariant
under a common translation. -/
theorem is_extended_translate (v tip pip : Landmark) :
    is_extended ⟨tip.x + v.x, tip.y + v.y, tip.z + v.z⟩
      ⟨pip.x + v.x, pip.y + v.y, pip.z + v.z⟩ = is_extended tip pip := by
  simp only [is_extended]
  apply decide_eq_decide.mpr
  simp only [extensionThreshold]
  constructor <;> intro h <;> linarith

/-- The all-closed test is invariant under translation of a 21-landmark
hand. -/
theorem allFiveClosed_translate (v : Landmark) (lm : List Landmark)
    (hlen : lm.length = 21) :
    allFiveClosed (translate v lm) = allFiveClosed lm := by
  have h3 := nth_translate v lm 3 (by omega)
  have h4 := nth_translate v lm 4 (by omega)
  have h6 := nth_translate v lm 6 (by omega)
  have h8 := nth_translate v lm 8 (by omega)
  have h10 := nth_translate v lm 10 (by omega)
  have h12 := nth_translate v lm 12 (by omega)
  have h14 := nth_translate v lm 14 (by omega)
  have h16 := nth_translate v lm 16 (by omega)
  have h18 := nth_translate v lm 18 (by omega)
  have h20 := nth_translate v lm 20 (by omega)
  simp only [allFiveClosed, h3, h4, h6, h8, h10, h12, h14, h16, h18, h20,
    is_extended_translate]

/-! ## Claim theorems -/

/-- C6: for every landmark list whose length is not exactly 21, `classify`
returns `("unknown", 0.0)`.  The guard precedes all finger geometry, and
the embedding is a total function, so no exception can arise. -/
theorem classify_rejects_malformed (lm : List Landmark) (handedness : String)
    (hlen : lm.length ≠ 21) : classify lm handedness = ("unknown", 0) := by
  unfold classify
  rw [if_pos hlen]

theorem classify_rejects_malformed_witness :
    ([] : List Landmark).length ≠ 21 ∧ classify [] "Right" = ("unknown", 0) :=
  ⟨by decide, classify_rejects_malformed [] "Right" (by decide)⟩

/-- C9: `classify` is insensitive to its handedness argument: for every
landmark list, classifying as `Left` and as `Right` gives the same pair —
the parameter is accepted but alters no threshold or branch. -/
theorem classify_handedness_inert (lm : List Landmark) :
    classify lm "Left" = classify lm "Right" := rfl

/-- C7: the command mappers are total pure functions: every gesture key and
every shape key maps to a non-empty display text with its fixed color tag
(identically on every call, as Lean functions are deterministic), and any
key outside the tables maps to the neutral fallback `("", (128, 128, 128))`
rather than an error. -/
theorem command_tables_total :
    (∀ g ∈ gestureKeys, (get_gesture_command g).1 ≠ "") ∧
    (∀ g, g ∉ gestureKeys → get_gesture_command g = ("", (128, 128, 128))) ∧
    (∀ s ∈ shapeKeys, (get_shape_command s).1 ≠ "") ∧
    (∀ s, s ∉ shapeKeys → get_shape_command s = ("", (128, 128, 128))) := by
  refine ⟨by decide, fun g hg => ?_, by decide, fun s hs => ?_⟩
  · unfold get_gesture_command
    rw [lookup_none_of_key_not_mem _ _ hg]
    rfl
  · unfold get_shape_command
    rw [lookup_none_of_key_not_mem _ _ hs]
    rfl

/-- C3: `smooth_gesture` implements exactly the claimed ordered procedure
(append and evict beyond capacity 5; repeated-gesture bonus over the last 3
entries; pass-through for a non-`unknown` gesture; halved decay fallback to
the second-most-recent entry when history has at least 2 entries; else
`(unknown, 0)`), stated as equality with the spec-worded `smoothSpec`. -/
theorem smoothing_implements_claimed_procedure (history : List (String × ℚ))
    (gesture : String) (confidence : ℚ) :
    smooth_gesture history gesture confidence = smoothSpec history gesture confidence :=
  smooth_gesture_eq_smoothSpec history gesture confidence

/-- C10: smoothing never relabels a real gesture: for every input gesture
other than `unknown`, every confidence and every prior history, the gesture
component of `smooth_gesture`'s result is the input gesture. -/
theorem smooth_gesture_preserves_label (history : List (String × ℚ)) (gesture : String)
    (confidence : ℚ) (hg : gesture ≠ "unknown") :
    ((smooth_gesture history gesture confidence).2).1 = gesture := by
  rw [smooth_gesture_eq_smoothSpec]
  simp only [smoothSpec]
  generalize (if (history ++ [(gesture, confidence)]).length > historySize then
      (history ++ [(gesture, confidence)]).tail
    else history ++ [(gesture, confidence)]) = h2
  by_cases hcnt : List.count gesture (List.map Prod.fst (lastN 3 h2)) ≥ 2
  · rw [if_pos hcnt]
  · rw [if_neg hcnt, if_pos hg]

theorem smooth_gesture_preserves_label_witness :
    "rock" ≠ "unknown" ∧
    ((smooth_gesture [("unknown", 0)] "rock" (88/100)).2).1 = "rock" :=
  ⟨by decide, smooth_gesture_preserves_label [("unknown", 0)] "rock" (88/100) (by decide)⟩

set_option maxRecDepth 8000 in
/-- C1 counterexample: `dzHand` reaches the thumb-direction rule with a
dead-zone displacement (`dx = 0`, `dy = -0.05`), yet `classify` returns
`("unknown", 0.85)`, not `("unknown", 0.0)` as claimed. -/
theorem dead_zone_confidence_counterexample :
    dzHand.length = 21 ∧ thumbOnlyExtended dzHand = true ∧
    |dominantDisplacement ((nth dzHand 4).x - (nth dzHand 0).x)
        ((nth dzHand 4).y - (nth dzHand 0).y)| ≤ 1/10 ∧
    classify dzHand "Right" ≠ ("unknown", 0) ∧
    classify dzHand "Right" = ("unknown", 85/100) := by
  refine ⟨rfl, by with_unfolding_all decide, by with_unfolding_all decide, ?_, ?_⟩
  · intro hcontra
    have h := congrArg Prod.snd hcontra
    have h85 : classify dzHand "Right" = ("unknown", 85/100) := by
      with_unfolding_all decide
    rw [h85] at hcontra
    have := congrArg Prod.snd hcontra
    norm_num at this
  · with_unfolding_all decide

/-- C1 (amended): in the direction dead zone the returned label is
`unknown` as claimed, but the confidence is the branch's fixed constant —
0.85 for the thumb-only rule and 0.80 for the index-only rule — not 0.0. -/
theorem dead_zone_yields_unknown_with_branch_confidence :
    (∀ lm handedness, lm.length = 21 → thumbOnlyExtended lm = true →
      |dominantDisplacement ((nth lm 4).x - (nth lm 0).x)
        ((nth lm 4).y - (nth lm 0).y)| ≤ 1/10 →
      classify lm handedness = ("unknown", 85/100)) ∧
    (∀ lm handedness, lm.length = 21 → indexOnlyExtended lm = true →
      |dominantDisplacement ((nth lm 8).x - (nth lm 0).x)
        ((nth lm 8).y - (nth lm 0).y)| ≤ 1/10 →
      classify lm handedness = ("unknown", 80/100)) := by
  constructor
  · intro lm handedness hlen hflags hdz
    rw [classify_thumb_rule lm handedness hlen hflags,
      get_thumb_direction_dead_zone lm handedness hdz]
  · intro lm handedness hlen hflags hdz
    rw [classify_index_rule lm handedness hlen hflags,
      get_point_direction_dead_zone lm handedness hdz]

/-- C4: with all five fingers extended, spread above 0.3 yields
`open_palm` with confidence `min(0.95, 0.7 + spread*0.25)`, and spread at
most 0.3 makes the open-palm rule fall through to the subsequent rules
(victory, rock, index-point, unknown) in first-match order, which — all
fingers being extended — yield `("unknown", 0.0)`. -/
theorem open_palm_requires_spread (lm : List Landmark) (handedness : String)
    (hlen : lm.length = 21) (hall : allFiveExtended lm = true) :
    (3/10 < finger_spread lm →
      classify lm handedness = ("open_palm", min (95/100) (7/10 + finger_spread lm * (25/100)))) ∧
    (finger_spread lm ≤ 3/10 →
      classify lm handedness = classify_tail true true true true lm handedness ∧
      classify lm handedness = ("unknown", 0)) := by
  refine ⟨fun hs => classify_open_rule_hit lm handedness hlen hall hs, fun hs => ?_⟩
  have h1 := classify_open_rule_falls_through lm handedness hlen hall hs
  exact ⟨h1, h1.trans (classify_tail_all_extended lm handedness)⟩

set_option maxRecDepth 8000 in
theorem open_palm_requires_spread_witness :
    spreadHand.length = 21 ∧ allFiveExtended spreadHand = true ∧
    3/10 < finger_spread spreadHand ∧
    classify spreadHand "Right" =
      ("open_palm", min (95/100) (7/10 + finger_spread spreadHand * (25/100))) :=
  ⟨rfl, by with_unfolding_all decide, by with_unfolding_all decide,
   (open_palm_requires_spread spreadHand "Right" rfl (by with_unfolding_all decide)).1
     (by with_unfolding_all decide)⟩

/-- C8: with all five fingers closed on a 21-landmark hand, `classify`
returns `("closed_palm", 0.90)`, and the result is invariant under
translating every landmark by a common offset — the decision depends only
on coordinate differences. -/
theorem closed_palm_translation_invariant (lm : List Landmark) (v : Landmark)
    (handedness : String) (hlen : lm.length = 21) (h : allFiveClosed lm = true) :
    classify lm handedness = ("closed_palm", 90/100) ∧
    classify (translate v lm) handedness = ("closed_palm", 90/100) := by
  refine ⟨classify_closed_rule lm handedness hlen h, ?_⟩
  apply classify_closed_rule
  · rw [translate, List.length_map, hlen]
  · rw [allFiveClosed_translate v lm hlen]
    exact h

set_option maxRecDepth 8000 in
theorem closed_palm_translation_invariant_witness :
    closedHand.length = 21 ∧ allFiveClosed closedHand = true ∧
    classify closedHand "Right" = ("closed_palm", 90/100) ∧
    classify (translate ⟨1/10, -(1/20), 2⟩ closedHand) "Right" = ("closed_palm", 90/100) := by
  have h := closed_palm_translation_invariant closedHand ⟨1/10, -(1/20), 2⟩ "Right" rfl
    (by with_unfolding_all decide)
  exact ⟨rfl, by with_unfolding_all decide, h.1, h.2⟩

/-- The choice fold of `mostCommon` stays inside any list containing its
seed and its candidates. -/
theorem foldl_choice_mem (names : List String) :
    ∀ (l : List String) (init : String), init ∈ names → (∀ g ∈ l, g ∈ names) →
      l.foldl (fun best g =>
        if names.count best < names.count g then g else best) init ∈ names := by
  intro l
  induction l with
  | nil =>
      intro init hi _
      simpa using hi
  | cons a t ih =>
      intro init hi hsub
      simp only [List.foldl_cons]
      apply ih
      · by_cases hc : names.count init < names.count a
        · rw [if_pos hc]
          exact hsub a (List.mem_cons_self a t)
        · rw [if_neg hc]
          exact hi
      · intro g hg
        exact hsub g (List.mem_cons_of_mem a hg)

/-- The modal label of a nonempty buffer is one of its labels. -/
theorem mostCommon_mem (names : List String) (h : names ≠ []) :
    mostCommon names ∈ names := by
  unfold mostCommon
  apply foldl_choice_mem
  · cases names with
    | nil => exact absurd rfl h
    | cons a l => exact List.mem_cons_self a l
  · intro g hg
    exact List.mem_dedup.mp hg

/-- The modal label of a constant buffer is its one label. -/
theorem mostCommon_replicate (n : Nat) (g : String) (hn : n ≠ 0) :
    mostCommon (List.replicate n g) = g := by
  have hd : (List.replicate n g).dedup = [g] := by
    induction n with
    | zero => exact absurd rfl hn
    | succ m ih =>
        rw [List.replicate_succ]
        by_cases hm : m = 0
        · subst hm
          simp
        · rw [List.dedup_cons_of_mem (by
            simp only [List.mem_replicate]
            exact ⟨hm, trivial⟩)]
          exact ih hm
  unfold mostCommon
  rw [hd]
  cases n with
  | zero => exact absurd rfl hn
  | succ m =>
      rw [List.replicate_succ]
      simp only [List.headD_cons, List.foldl_cons, List.foldl_nil, lt_irrefl, if_false]

/-- Membership in a mapped tail lifts to the mapped list. -/
theorem mem_map_tail {α β : Type} (f : α → β) (l : List α) (u : β)
    (h : u ∈ (l.tail).map f) : u ∈ l.map f := by
  obtain ⟨x, hx, rfl⟩ := List.mem_map.mp h
  exact List.mem_map.mpr ⟨x, List.mem_of_mem_tail hx, rfl⟩

/-- Append-and-trim never introduces the `unknown` label. -/
theorem pushTrim_no_unknown (buf : List (String × ℚ)) (g : String) (c : ℚ)
    (h : "unknown" ∉ buf.map Prod.fst) :
    "unknown" ∉ (pushTrim buf g c).map Prod.fst := by
  have hbase : "unknown" ∉ ((if g ≠ "unknown" then buf ++ [(g, c)] else buf).map Prod.fst) := by
    by_cases hg : g ≠ "unknown"
    · rw [if_pos hg]
      simp only [List.map_append, List.mem_append]
      rintro (hc | hc)
      · exact h hc
      · simp only [List.map_cons, List.map_nil, List.mem_singleton] at hc
        exact hg hc.symm
    · rw [if_neg hg]
      exact h
  simp only [pushTrim]
  generalize (if g ≠ "unknown" then buf ++ [(g, c)] else buf) = buf1 at hbase ⊢
  by_cases hlen : buf1.length > maxFrames
  · rw [if_pos hlen]
    exact fun hmem => hbase (mem_map_tail _ _ _ hmem)
  · rw [if_neg hlen]
    exact hbase

/-- An emitted label is a label of the checked buffer. -/
theorem validationStep_emits_mem (buf : List (String × ℚ)) (g : String) (c : ℚ) (l : String)
    (h : (validationStep buf g c).2 = some l) :
    l ∈ (pushTrim buf g c).map Prod.fst := by
  simp only [validationStep, validationCheck] at h
  generalize hb : pushTrim buf g c = b2 at h ⊢
  split at h
  · rename_i h1
    split at h
    · rename_i h2
      simp only [Option.some.injEq] at h
      rw [← h]
      apply mostCommon_mem
      apply List.ne_nil_of_length_pos
      rw [List.length_map]
      simp only [minFramesRequired] at h1
      omega
    · simp at h
  · simp at h

/-- The buffer kept by a validation step never holds the `unknown` label
when the incoming buffer does not. -/
theorem validationStep_fst_no_unknown (buf : List (String × ℚ)) (g : String) (c : ℚ)
    (h : "unknown" ∉ buf.map Prod.fst) :
    "unknown" ∉ ((validationStep buf g c).1).map Prod.fst := by
  simp only [validationStep, validationCheck]
  have hp := pushTrim_no_unknown buf g c h
  generalize pushTrim buf g c = b2 at hp ⊢
  split
  · split
    · simp
    · exact hp
  · exact hp

/-- Along any run whose starting buffer avoids the `unknown` label, every
emitted validated command differs from `unknown`. -/
theorem validationRun_no_unknown (inputs : List (String × ℚ)) :
    ∀ (buf : List (String × ℚ)), "unknown" ∉ buf.map Prod.fst →
      ∀ l ∈ (validationRun buf inputs).2, l ≠ "unknown" := by
  induction inputs with
  | nil =>
      intro buf _ l hl
      simp [validationRun] at hl
  | cons p rest ih =>
      obtain ⟨g, c⟩ := p
      intro buf hbuf l hl
      simp only [validationRun] at hl
      rw [List.mem_append] at hl
      rcases hl with hl | hl
      · rcases hstep : (validationStep buf g c).2 with _ | l'
        · rw [hstep] at hl
          simp at hl
        · rw [hstep] at hl
          simp only [Option.toList_some, List.mem_singleton] at hl
          subst hl
          intro hcontra
          subst hcontra
          exact pushTrim_no_unknown buf g c hbuf (validationStep_emits_mem buf g c _ hstep)
      · exact ih (validationStep buf g c).1 (validationStep_fst_no_unknown buf g c hbuf) l hl

/-- Along any run in which no checked buffer ever holds a label with count
at least 10, no validated command is emitted. -/
theorem validationRun_no_emission (inputs : List (String × ℚ)) :
    ∀ (buf : List (String × ℚ)),
      (∀ b2 ∈ checkBuffers buf inputs, ∀ l ∈ b2.map Prod.fst,
        (b2.map Prod.fst).count l < minFramesRequired) →
      (validationRun buf inputs).2 = [] := by
  induction inputs with
  | nil =>
      intro buf _
      rfl
  | cons p rest ih =>
      obtain ⟨g, c⟩ := p
      intro buf hcnt
      simp only [checkBuffers] at hcnt
      have hhead := hcnt (pushTrim buf g c) (List.mem_cons_self _ _)
      have hnone : (validationStep buf g c).2 = none := by
        simp only [validationStep, validationCheck]
        generalize hb : pushTrim buf g c = b2 at hhead ⊢
        by_cases h1 : minFramesRequired ≤ b2.length
        · rw [if_pos h1]
          by_cases h2 : minFramesRequired ≤
                (b2.map Prod.fst).count (mostCommon (b2.map Prod.fst)) ∧
              confidenceThreshold < (b2.map Prod.snd).sum / ((b2.map Prod.snd).length : ℚ)
          · exfalso
            have hmem : mostCommon (b2.map Prod.fst) ∈ b2.map Prod.fst := by
              apply mostCommon_mem
              apply List.ne_nil_of_length_pos
              rw [List.length_map]
              simp only [minFramesRequired] at h1
              omega
            exact absurd h2.1 (not_le.mpr (hhead _ hmem))
          · rw [if_neg h2]
        · rw [if_neg h1]
      simp only [validationRun, hnone, Option.toList_none, List.nil_append]
      apply ih
      intro b2 hb2
      exact hcnt b2 (List.mem_cons_of_mem _ hb2)

/-- Append-and-trim on a short buffer is a plain append. -/
theorem pushTrim_small (buf : List (String × ℚ)) (g : String) (c : ℚ)
    (hg : g ≠ "unknown") (hlen : buf.length + 1 ≤ maxFrames) :
    pushTrim buf g c = buf ++ [(g, c)] := by
  simp only [pushTrim]
  rw [if_pos hg, if_neg]
  simp only [List.length_append, List.length_cons, List.length_nil]
  omega

/-- A validation step whose checked buffer is still below 10 entries emits
nothing and keeps the buffer. -/
theorem validationStep_small (buf : List (String × ℚ)) (g : String) (c : ℚ)
    (h : (pushTrim buf g c).length < minFramesRequired) :
    validationStep buf g c = (pushTrim buf g c, none) := by
  simp only [validationStep, validationCheck]
  rw [if_neg (not_le.mpr h)]

/-- Feeding one more identical result to a constant buffer of fewer than
nine entries just accumulates. -/
theorem validationStep_replicate_accum (g : String) (c : ℚ) (hg : g ≠ "unknown")
    (k : Nat) (hk : k ≤ 8) :
    validationStep (List.replicate k (g, c)) g c = (List.replicate (k+1) (g, c), none) := by
  have hpt : pushTrim (List.replicate k (g, c)) g c = List.replicate (k+1) (g, c) := by
    rw [pushTrim_small _ _ _ hg (by
      simp only [List.length_replicate, maxFrames]
      omega), ← List.replicate_succ']
  rw [validationStep_small _ _ _ (by
    rw [hpt]
    simp only [List.length_replicate, minFramesRequired]
    omega), hpt]

/-- The tenth identical `(g, 0.8)` result validates `g` and clears the
buffer: ten entries, modal count ten, mean confidence 0.8 > 0.7. -/
theorem validationStep_replicate_emit (g : String) (hg : g ≠ "unknown") :
    validationStep (List.replicate 9 (g, 4/5)) g (4/5) = ([], some g) := by
  have hpt : pushTrim (List.replicate 9 (g, 4/5)) g (4/5) = List.replicate 10 (g, 4/5) := by
    rw [pushTrim_small _ _ _ hg (by
      simp only [List.length_replicate, maxFrames]
      omega), ← List.replicate_succ']
  simp only [validationStep, hpt, validationCheck]
  rw [if_pos (by
    simp only [List.length_replicate, minFramesRequired]
    omega)]
  rw [if_pos ?hcond]
  case hcond =>
    constructor
    · rw [List.map_replicate, mostCommon_replicate 10 g (by omega),
        List.count_replicate_self]
      simp only [minFramesRequired]
      omega
    · rw [List.map_replicate, List.sum_replicate, List.length_replicate]
      simp only [confidenceThreshold, nsmul_eq_mul]
      norm_num
  rw [List.map_replicate, mostCommon_replicate 10 g (by omega)]

/-- Running a constant non-`unknown` stream of confidence 0.8 from a
constant buffer: one emission exactly when the combined count reaches 10. -/
theorem validationRun_replicate (g : String) (hg : g ≠ "unknown") :
    ∀ (n k : Nat), k ≤ 9 → n + k ≤ 12 →
      (validationRun (List.replicate k (g, 4/5)) (List.replicate n (g, 4/5))).2 =
        if 10 ≤ n + k then [g] else [] := by
  intro n
  induction n with
  | zero =>
      intro k hk _
      rw [List.replicate_zero]
      simp only [validationRun]
      rw [if_neg (by omega)]
  | succ m ih =>
      intro k hk hnk
      rw [List.replicate_succ]
      simp only [validationRun]
      by_cases hk8 : k ≤ 8
      · rw [validationStep_replicate_accum g (4/5) hg k hk8]
        simp only [Option.toList_none, List.nil_append]
        rw [ih (k+1) (by omega) (by omega)]
        have hEq : m + (k + 1) = m + 1 + k := by omega
        rw [hEq]
      · have hk9 : k = 9 := by omega
        subst hk9
        rw [validationStep_replicate_emit g hg]
        simp only [Option.toList_some]
        have hrun := ih 0 (by omega) (by omega)
        rw [List.replicate_zero] at hrun
        rw [if_neg (by omega)] at hrun
        rw [hrun, if_pos (by omega)]
        simp

/-- C2: the validation window emits exactly when, after append-and-trim,
the buffer holds at least 10 entries, the modal label's count is at least
10, and the mean confidence over the whole buffer exceeds 0.7; on emission
the buffer is cleared in the same step; consequently a stream of 12
identical `(g, 0.8)` results emits `g` exactly once (the emission fires at
the 10th input and the 11th/12th only re-accumulate). -/
theorem validation_emits_once_on_majority :
    (∀ buf gesture confidence,
      ((validationStep buf gesture confidence).2).isSome = true ↔
        (minFramesRequired ≤ (pushTrim buf gesture confidence).length ∧
         minFramesRequired ≤
           ((pushTrim buf gesture confidence).map Prod.fst).count
             (mostCommon ((pushTrim buf gesture confidence).map Prod.fst)) ∧
         confidenceThreshold <
           ((pushTrim buf gesture confidence).map Prod.snd).sum /
             (((pushTrim buf gesture confidence).map Prod.snd).length : ℚ))) ∧
    (∀ buf gesture confidence l, (validationStep buf gesture confidence).2 = some l →
      (validationStep buf gesture confidence).1 = []) ∧
    (∀ g, g ≠ "unknown" →
      (validationRun [] (List.replicate 12 (g, 4/5))).2 = [g]) := by
  refine ⟨fun buf gesture confidence => ?_, fun buf gesture confidence l hl => ?_,
    fun g hg => ?_⟩
  · simp only [validationStep, validationCheck]
    generalize pushTrim buf gesture confidence = b2
    by_cases h1 : minFramesRequired ≤ b2.length
    · rw [if_pos h1]
      by_cases h2 : minFramesRequired ≤
            (b2.map Prod.fst).count (mostCommon (b2.map Prod.fst)) ∧
          confidenceThreshold < (b2.map Prod.snd).sum / ((b2.map Prod.snd).length : ℚ)
      · rw [if_pos h2]
        simp only [Option.isSome_some, true_iff]
        exact ⟨h1, h2.1, h2.2⟩
      · rw [if_neg h2]
        simp only [Option.isSome_none, Bool.false_eq_true, false_iff]
        intro hc
        exact h2 ⟨hc.2.1, hc.2.2⟩
    · rw [if_neg h1]
      simp only [Option.isSome_none, Bool.false_eq_true, false_iff]
      intro hc
      exact h1 hc.1
  · simp only [validationStep, validationCheck] at hl ⊢
    generalize hb : pushTrim buf gesture confidence = b2 at hl ⊢
    split at hl
    · rename_i h1
      split at hl
      · rename_i h2
        rw [if_pos h1, if_pos h2]
      · simp at hl
    · simp at hl
  · have h := validationRun_replicate g hg 12 0 (by omega) (by omega)
    rw [List.replicate_zero] at h
    rw [h, if_pos (by omega)]

/-- C5: from an empty buffer the validation window never emits the label
`unknown` (only non-`unknown` smoothed results are appended, so the modal
label is never `unknown`), and along any run in which no label's count in
a checked buffer ever reaches 10, no validated command is emitted,
whatever the confidences. -/
theorem validation_never_emits_unknown_and_needs_majority :
    (∀ inputs l, l ∈ (validationRun [] inputs).2 → l ≠ "unknown") ∧
    (∀ inputs,
      (∀ b2 ∈ checkBuffers [] inputs, ∀ l ∈ b2.map Prod.fst,
        (b2.map Prod.fst).count l < minFramesRequired) →
      (validationRun [] inputs).2 = []) :=
  ⟨fun inputs l hl => validationRun_no_unknown inputs [] (by simp) l hl,
   fun inputs h => validationRun_no_emission inputs [] h⟩

end GestureCore
